import Mathlib

/-!
Verification of the SplatBridge ROS trainer start-up orchestrator and
readiness gate, a shallow embedding of src/splatbridge/ros_trainer.py.

Embedding conventions:

- Python float time is modelled exactly by rational numbers.  The poll
  interval is the literal 0.05 s sleep of the source, and the elapsed
  time observed by the guard at the n-th poll is idealised to exactly
  n * 0.05 (clock reads, buffer reads and display updates take zero
  model time; each sleep takes exactly one interval).
- The ingestion buffer is external: the count that
  pipeline.datamanager.train_image_dataloader.current_idx would return
  at the n-th poll is an arbitrary function obs : Nat -> Nat.
- num_msgs_to_start is a Python int, modelled as Int; the dataloader
  index is a count, modelled as Nat and cast to Int where the source
  compares them.
- The Python variable named status in setup() takes three values over
  a run: the bool False it is initialised to, the rich console status
  object that the with-statement rebinds it to (a plain Python object,
  hence truthy), and the bool True assigned when the readiness
  condition fires.  StatusVal enumerates these, and StatusVal.truthy
  is Python truthiness, which the final if-not-status test applies.
- The loop of setup() lines 122-131 terminates in bounded iterations,
  so it is embedded with a fuel argument whose wrapper supplies fuel
  strictly larger than the largest possible iteration count; lemmas
  below show the guard, never the fuel, ends the loop.
-/

namespace SplatBridge

/-- Values the Python variable status of ROSTrainer.setup ranges over:
False from line 118, the console status object bound by the
with-statement of line 122 (truthy, like any plain Python object), and
True from line 126. -/
inductive StatusVal where
  | falseV
  | displayHandle
  | trueV
  deriving DecidableEq, Repr

/-- Python truthiness of a StatusVal, as tested by line 135. -/
def StatusVal.truthy : StatusVal → Bool
  | StatusVal.falseV => false
  | StatusVal.displayHandle => true
  | StatusVal.trueV => true

/-- The fixed sleep of line 131, 0.05 seconds. -/
def pollInterval : ℚ := 1 / 20

/-- ROSTrainerConfig (lines 21-27): msg_timeout defaults to 300.0
seconds and num_msgs_to_start defaults to 10.  The dataclass performs
no validation of either field. -/
structure ROSTrainerConfig where
  msg_timeout : ℚ := 300
  num_msgs_to_start : ℤ := 10
  deriving DecidableEq, Repr

/-- Fuel bound for the polling loop: one more than the number of poll
indices n with n * pollInterval < t, which is at most the ceiling of
20 * t. -/
def gateFuel (t : ℚ) : ℕ := (Int.ceil (20 * t)).toNat + 1

/-- The polling loop of setup() lines 123-131.  Arguments: k is
self.num_msgs_to_start, t is self.msg_timeout, obs n is the dataloader
current_idx read at the n-th poll, then fuel, the next poll index n,
and the current value of the Python variable status.  Result: the
final value of status, the number of polls performed, and the list of
counts shown by the display updates of line 130 in order.  At the n-th
guard check the elapsed time is n * pollInterval: the guard of
line 123 holds when n * pollInterval < t.  Line 125 breaks, setting
status to True, when obs n is at least k - 1; otherwise line 130
updates the display with obs n and line 131 sleeps. -/
def gateLoopFuel (k : ℤ) (t : ℚ) (obs : ℕ → ℕ) :
    ℕ → ℕ → StatusVal → StatusVal × ℕ × List ℕ
  | 0, n, st => (st, n, [])
  | fuel + 1, n, st =>
    if (n : ℚ) * pollInterval < t then
      if k - 1 ≤ (obs n : ℤ) then (StatusVal.trueV, n + 1, [])
      else
        ((gateLoopFuel k t obs fuel (n + 1) st).1,
         (gateLoopFuel k t obs fuel (n + 1) st).2.1,
         obs n :: (gateLoopFuel k t obs fuel (n + 1) st).2.2)
    else (st, n, [])

/-- The whole readiness gate of setup() lines 117-131, starting at poll
index 0.  With displayOn true (the source as written) the loop is
entered with status rebound to the console status object by the
with-statement of line 122; with displayOn false (the gate without its
display) status keeps the False of line 118. -/
def runGate (k : ℤ) (t : ℚ) (obs : ℕ → ℕ) (displayOn : Bool) :
    StatusVal × ℕ × List ℕ :=
  gateLoopFuel k t obs (gateFuel t) 0
    (if displayOn then StatusVal.displayHandle else StatusVal.falseV)

/-- Whether the NameError of lines 135-139 is raised after the gate:
the source raises exactly when the final value of status is falsy. -/
def gateRaises (k : ℤ) (t : ℚ) (obs : ℕ → ℕ) (displayOn : Bool) : Bool :=
  !(runGate k t obs displayOn).1.truthy

/-- The data manager owned by the pipeline; train_dataset is the handle
that line 133 stores into self.dataset. -/
structure DataManager where
  train_dataset : ℕ
  deriving DecidableEq, Repr

/-- The pipeline collaborator, reduced to the parts setup() reads
during the gate phase. -/
structure Pipeline where
  datamanager : DataManager
  deriving DecidableEq, Repr

/-- The mutable state of a ROSTrainer at the start of the gate phase of
setup() (line 116): the fields built by lines 52-114 together with the
fields set by the constructor (lines 39-41).  Collaborator-owned
objects are abstracted to handles. -/
structure TrainerState where
  config : ROSTrainerConfig
  msg_timeout : ℚ
  num_msgs_to_start : ℤ
  pipeline : Pipeline
  optimizers : ℕ
  callbacks : ℕ
  viewer_state : Option ℕ
  cameras_drawn : List ℕ
  dataset : Option ℕ

/-- Everything observable about a run of the gate phase of setup()
(lines 116-143): the trainer state after it, the buffer count function
(unchanged, returned to state the frame condition), whether the loop
broke on the readiness condition, whether the NameError was raised,
the number of polls, and the display updates. -/
structure GatePhaseResult where
  trainer : TrainerState
  buffer : ℕ → ℕ
  ready : Bool
  raised : Bool
  polls : ℕ
  displayed : List ℕ

/-- The gate phase of setup(), lines 116-143, acting on a trainer
state: run the polling loop with the display on (as in the source),
assign self.dataset from the data manager (line 133, unconditional),
then raise exactly when the final status value is falsy (line 135). -/
def gatePhase (tr : TrainerState) (obs : ℕ → ℕ) : GatePhaseResult where
  trainer := { tr with dataset := some tr.pipeline.datamanager.train_dataset }
  buffer := obs
  ready :=
    decide ((runGate tr.num_msgs_to_start tr.msg_timeout obs true).1 = StatusVal.trueV)
  raised := !(runGate tr.num_msgs_to_start tr.msg_timeout obs true).1.truthy
  polls := (runGate tr.num_msgs_to_start tr.msg_timeout obs true).2.1
  displayed := (runGate tr.num_msgs_to_start tr.msg_timeout obs true).2.2

/-- A concrete trainer state entering the gate: msg_timeout 1/10 s
(two polls fit), num_msgs_to_start 10, dataset handle 7, no dataset
captured yet. -/
def trExample : TrainerState where
  config := { msg_timeout := 1 / 10, num_msgs_to_start := 10 }
  msg_timeout := 1 / 10
  num_msgs_to_start := 10
  pipeline := { datamanager := { train_dataset := 7 } }
  optimizers := 1
  callbacks := 2
  viewer_state := none
  cameras_drawn := []
  dataset := none

/-- The observable side effects of ROSTrainer.setup in source order.
gatePolling carries the number of polls and the counts shown by the
display; the other constructors name the steps of lines 52-143. -/
inductive SetupEvent where
  | pipelineSetup
  | optimizersSetup
  | legacyViewerWarning
  | viewerConstruct
  | checkViewerWarnings
  | loadCheckpoint
  | callbacksConstruct
  | eventWriterSetup
  | localWriterSetup
  | putConfig
  | profilerSetup
  | gateStart
  | gatePolling (polls : ℕ) (displayed : List ℕ)
  | datasetCapture
  | raiseTimeout
  | printSuccess
  deriving DecidableEq, Repr

/-- The ordered event trace of one run of ROSTrainer.setup
(lines 52-143): pipeline construction (line 52), optimizers (line 59),
the legacy-viewer warning print of lines 64-67 when legacy
visualization is requested on the primary process, viewer construction
of lines 68-81 when the viewer is enabled on the primary process,
viewer warnings (line 83), checkpoint restore (line 85), callback
construction (lines 87-94), event writer (line 98), local writer
(line 106), the configuration record (line 111), the profiler
(line 114), then the readiness gate (line 117), its polls, the
unconditional dataset capture of line 133, and finally the raise of
line 136 or the success print of line 141 according to the truthiness
of status. -/
def setupTrace (legacyEnabled viewerEnabled : Bool) (localRank : ℕ)
    (k : ℤ) (t : ℚ) (obs : ℕ → ℕ) : List SetupEvent :=
  [SetupEvent.pipelineSetup, SetupEvent.optimizersSetup]
    ++ (if legacyEnabled ∧ localRank = 0 then [SetupEvent.legacyViewerWarning] else [])
    ++ (if viewerEnabled ∧ localRank = 0 then [SetupEvent.viewerConstruct] else [])
    ++ [SetupEvent.checkViewerWarnings, SetupEvent.loadCheckpoint,
        SetupEvent.callbacksConstruct, SetupEvent.eventWriterSetup,
        SetupEvent.localWriterSetup, SetupEvent.putConfig,
        SetupEvent.profilerSetup, SetupEvent.gateStart,
        SetupEvent.gatePolling (runGate k t obs true).2.1 (runGate k t obs true).2.2,
        SetupEvent.datasetCapture,
        if (runGate k t obs true).1.truthy then SetupEvent.printSuccess
        else SetupEvent.raiseTimeout]

/-! Helper lemmas about the polling loop. -/

/-- The guard of line 123 is downward closed in the poll index: if it
fails at poll n it fails at every later poll. -/
lemma guard_antitone {t : ℚ} {n m : ℕ} (hnm : n ≤ m)
    (hm : (m : ℚ) * pollInterval < t) : (n : ℚ) * pollInterval < t := by
  have hcast : (n : ℚ) ≤ (m : ℚ) := by exact_mod_cast hnm
  have hpi : (0 : ℚ) ≤ pollInterval := by norm_num [pollInterval]
  exact lt_of_le_of_lt (mul_le_mul_of_nonneg_right hcast hpi) hm

/-- Any poll index admitted by the guard is below the fuel bound. -/
lemma guard_lt_bound {t : ℚ} {n : ℕ} (h : (n : ℚ) * pollInterval < t) :
    n < (Int.ceil (20 * t)).toNat := by
  have h20 : (n : ℚ) < 20 * t := by
    rw [pollInterval] at h
    nlinarith
  have hz : (n : ℤ) < Int.ceil (20 * t) := by
    rw [Int.lt_ceil]
    push_cast
    exact h20
  omega

/-- The loop ends with status True exactly when some poll inside the
deadline and inside the fuel window observes a count of at least
k - 1. -/
lemma gateLoop_ready_iff (k : ℤ) (t : ℚ) (obs : ℕ → ℕ) :
    ∀ (fuel n : ℕ) (st : StatusVal), st ≠ StatusVal.trueV →
      ((gateLoopFuel k t obs fuel n st).1 = StatusVal.trueV ↔
        ∃ m : ℕ, n ≤ m ∧ m < n + fuel ∧ (m : ℚ) * pollInterval < t ∧
          k - 1 ≤ (obs m : ℤ)) := by
  intro fuel
  induction fuel with
  | zero =>
    intro n st hst
    constructor
    · intro h
      exact absurd h hst
    · rintro ⟨m, h1, h2, -, -⟩
      omega
  | succ fuel ih =>
    intro n st hst
    simp only [gateLoopFuel]
    split_ifs with hg hc
    · constructor
      · intro _
        exact ⟨n, le_rfl, by omega, hg, hc⟩
      · intro _
        rfl
    · show (gateLoopFuel k t obs fuel (n + 1) st).1 = StatusVal.trueV ↔ _
      rw [ih (n + 1) st hst]
      constructor
      · rintro ⟨m, h1, h2, h3, h4⟩
        exact ⟨m, by omega, by omega, h3, h4⟩
      · rintro ⟨m, h1, h2, h3, h4⟩
        rcases Nat.eq_or_lt_of_le h1 with heq | hlt
        · subst heq
          exact absurd h4 hc
        · exact ⟨m, by omega, by omega, h3, h4⟩
    · constructor
      · intro h
        exact absurd h hst
      · rintro ⟨m, h1, -, h3, -⟩
        exact absurd (guard_antitone h1 h3) hg

/-- The number of polls the loop has performed when it exits is at most
the fuel bound minus one, whichever way it exits. -/
lemma gateLoop_polls_le (k : ℤ) (t : ℚ) (obs : ℕ → ℕ) :
    ∀ (fuel n : ℕ) (st : StatusVal),
      (gateLoopFuel k t obs fuel n st).2.1 ≤
        max n ((Int.ceil (20 * t)).toNat) := by
  intro fuel
  induction fuel with
  | zero =>
    intro n st
    exact Nat.le_max_left _ _
  | succ fuel ih =>
    intro n st
    simp only [gateLoopFuel]
    split_ifs with hg hc
    · have hb := guard_lt_bound hg
      show n + 1 ≤ _
      exact le_trans (by omega) (Nat.le_max_right _ _)
    · show (gateLoopFuel k t obs fuel (n + 1) st).2.1 ≤ _
      have h1 := ih (n + 1) st
      have hb := guard_lt_bound hg
      have hmax : max (n + 1) ((Int.ceil (20 * t)).toNat) =
          (Int.ceil (20 * t)).toNat := Nat.max_eq_right (by omega)
      rw [hmax] at h1
      exact le_trans h1 (Nat.le_max_right _ _)
    · exact Nat.le_max_left _ _

/-- If no poll ever observes a count of at least k - 1, the loop leaves
the status variable untouched. -/
lemma gateLoopFuel_stuck (k : ℤ) (t : ℚ) (obs : ℕ → ℕ)
    (h : ∀ n : ℕ, ¬ (k - 1 ≤ (obs n : ℤ))) :
    ∀ (fuel n : ℕ) (st : StatusVal), (gateLoopFuel k t obs fuel n st).1 = st := by
  intro fuel
  induction fuel with
  | zero =>
    intro n st
    rfl
  | succ fuel ih =>
    intro n st
    simp only [gateLoopFuel]
    split_ifs with hg hc
    · exact absurd hc (h n)
    · exact ih (n + 1) st
    · rfl

/-- With a zero timeout the guard fails at the very first check: the
loop performs no poll at all and returns the status it was entered
with. -/
lemma runGate_zero_timeout (k : ℤ) (obs : ℕ → ℕ) (displayOn : Bool) :
    runGate k 0 obs displayOn =
      ((if displayOn then StatusVal.displayHandle else StatusVal.falseV), 0, []) := by
  have hf : gateFuel 0 = 1 := by simp [gateFuel]
  have hg : ¬ (((0 : ℕ) : ℚ) * pollInterval < (0 : ℚ)) := by norm_num
  rw [runGate, hf]
  simp only [gateLoopFuel]
  rw [if_neg hg]

/-- If the deadline is positive and the buffer already holds enough at
the first poll, the loop breaks at once with status True. -/
lemma runGate_first_poll (k : ℤ) (t : ℚ) (obs : ℕ → ℕ) (displayOn : Bool)
    (ht : 0 < t) (hc : k - 1 ≤ (obs 0 : ℤ)) :
    runGate k t obs displayOn = (StatusVal.trueV, 1, []) := by
  have hg : ((0 : ℕ) : ℚ) * pollInterval < t := by
    simpa using ht
  rw [runGate, gateFuel]
  simp only [gateLoopFuel]
  rw [if_pos hg, if_pos hc]

/-! Claim theorems. -/

/-- Claim C1, code behaviour at a failing input: in a run with
num_msgs_to_start 10, msg_timeout 1/10 s and a buffer count stuck at 0
the gate never becomes ready, yet the NameError of lines 135-139 is
not raised, because the with-statement of line 122 rebound the
variable status to the truthy console status object, so the test
if not status of line 135 is false.  The claim (and the spec) say a
fatal setup error is raised on this path. -/
theorem gate_timeout_no_raise :
    (runGate 10 (1/10) (fun _ : ℕ => 0) true).1 ≠ StatusVal.trueV ∧
      gateRaises 10 (1/10) (fun _ : ℕ => 0) true = false := by
  have h : ∀ n : ℕ, ¬ ((10 : ℤ) - 1 ≤ (((fun _ : ℕ => 0) n : ℕ) : ℤ)) :=
    fun n => by norm_num
  have h1 : (runGate 10 (1/10) (fun _ : ℕ => 0) true).1 = StatusVal.displayHandle := by
    rw [runGate]
    exact gateLoopFuel_stuck 10 (1/10) (fun _ : ℕ => 0) h (gateFuel (1/10)) 0 _
  refine ⟨?_, ?_⟩
  · rw [h1]
    decide
  · show (!(runGate 10 (1/10) (fun _ : ℕ => 0) true).1.truthy) = false
    rw [h1]
    rfl

/-- Claim C2, counterexample to the claim as stated: in a run whose
gate times out (num_msgs_to_start 10, msg_timeout 1/10 s, buffer count
stuck at 0), the trainer dataset field IS assigned from the data
manager of the pipeline (line 133 runs before the status check of
line 135), ending as some 7 where 7 is the train_dataset handle. -/
theorem dataset_assigned_on_timeout_cex :
    (gatePhase trExample (fun _ : ℕ => 0)).ready = false ∧
      (gatePhase trExample (fun _ : ℕ => 0)).trainer.dataset = some 7 := by
  have h : ∀ n : ℕ, ¬ ((10 : ℤ) - 1 ≤ (((fun _ : ℕ => 0) n : ℕ) : ℤ)) :=
    fun n => by norm_num
  have h1 : (runGate trExample.num_msgs_to_start trExample.msg_timeout
      (fun _ : ℕ => 0) true).1 = StatusVal.displayHandle := by
    rw [runGate]
    exact gateLoopFuel_stuck trExample.num_msgs_to_start trExample.msg_timeout
      (fun _ : ℕ => 0) h (gateFuel trExample.msg_timeout) 0 _
  refine ⟨?_, rfl⟩
  show decide ((runGate trExample.num_msgs_to_start trExample.msg_timeout
      (fun _ : ℕ => 0) true).1 = StatusVal.trueV) = false
  rw [h1]
  decide

/-- Claim C2 amended: the dataset field is assigned from the data
manager of the pipeline on every run of the gate phase, the TIMED_OUT
path included, because the assignment of line 133 precedes the outcome
check of line 135 unconditionally. -/
theorem dataset_always_assigned (tr : TrainerState) (obs : ℕ → ℕ) :
    (gatePhase tr obs).trainer.dataset =
      some tr.pipeline.datamanager.train_dataset := rfl

/-- Claim C3, code behaviour at a failing input: on a timed-out run
(num_msgs_to_start 10, msg_timeout 1/10 s, count stuck at 0) the gate
run as written, with the display context active, does not raise, while
the same state machine entered with status still False (the gate
without its display) does raise.  The display is therefore not
cosmetic: its context manager rebinding of status decides whether the
fatal error fires, contradicting the claim that the terminal outcome
is the same with or without the display. -/
theorem display_affects_raise :
    gateRaises 10 (1/10) (fun _ : ℕ => 0) true = false ∧
      gateRaises 10 (1/10) (fun _ : ℕ => 0) false = true := by
  have h : ∀ n : ℕ, ¬ ((10 : ℤ) - 1 ≤ (((fun _ : ℕ => 0) n : ℕ) : ℤ)) :=
    fun n => by norm_num
  refine ⟨?_, ?_⟩
  · show (!(runGate 10 (1/10) (fun _ : ℕ => 0) true).1.truthy) = false
    rw [runGate, gateLoopFuel_stuck 10 (1/10) (fun _ : ℕ => 0) h]
    rfl
  · show (!(runGate 10 (1/10) (fun _ : ℕ => 0) false).1.truthy) = true
    rw [runGate, gateLoopFuel_stuck 10 (1/10) (fun _ : ℕ => 0) h]
    rfl

/-- Claim C4: for num_msgs_to_start k at least 1, the gate reaches
READY (status True) exactly when some poll within the deadline
observes a dataloader index of at least k - 1.  In particular k = 1 is
satisfied by index 0 at the first poll, and a count jumping straight
past k - 1 between polls still yields READY, since only the inequality
at the observing poll matters. -/
theorem gate_ready_iff (k : ℤ) (t : ℚ) (obs : ℕ → ℕ) (_hk : 1 ≤ k) :
    ((runGate k t obs true).1 = StatusVal.trueV ↔
      ∃ n : ℕ, (n : ℚ) * pollInterval < t ∧ k - 1 ≤ (obs n : ℤ)) := by
  have h := gateLoop_ready_iff k t obs (gateFuel t) 0 StatusVal.displayHandle
    (by decide)
  have hrun : (runGate k t obs true).1 =
      (gateLoopFuel k t obs (gateFuel t) 0 StatusVal.displayHandle).1 := rfl
  rw [hrun, h]
  constructor
  · rintro ⟨m, -, -, h3, h4⟩
    exact ⟨m, h3, h4⟩
  · rintro ⟨m, h3, h4⟩
    refine ⟨m, Nat.zero_le m, ?_, h3, h4⟩
    have hb := guard_lt_bound h3
    simp only [gateFuel]
    omega

/-- Claim C4 witness: the characterisation applied at
num_msgs_to_start 1, msg_timeout 1/10 s, count constantly 0. -/
theorem gate_ready_iff_witness :
    (1 : ℤ) ≤ 1 ∧
      ((runGate 1 (1/10) (fun _ : ℕ => 0) true).1 = StatusVal.trueV ↔
        ∃ n : ℕ, (n : ℚ) * pollInterval < 1/10 ∧
          (1 : ℤ) - 1 ≤ (((fun _ : ℕ => 0) n : ℕ) : ℤ)) :=
  ⟨le_rfl, gate_ready_iff 1 (1/10) (fun _ : ℕ => 0) le_rfl⟩

/-- Claim C5, counterexample to the claim as stated: with msg_timeout
0 and a buffer already ready at entry (count 5, num_msgs_to_start 1,
so index 5 is at least 1 - 1 at the first poll) the gate still does
NOT reach READY: the guard of line 123 is checked before any poll, it
fails at once at elapsed time 0, and the loop body never runs. -/
theorem zero_timeout_ready_at_entry_cex :
    ((1 : ℤ) - 1 ≤ (((fun _ : ℕ => 5) 0 : ℕ) : ℤ)) ∧
      (runGate 1 0 (fun _ : ℕ => 5) true).1 ≠ StatusVal.trueV ∧
      (runGate 1 0 (fun _ : ℕ => 5) true).2.1 = 0 := by
  refine ⟨by norm_num, ?_, ?_⟩
  · rw [runGate_zero_timeout]
    decide
  · rw [runGate_zero_timeout]

/-- Claim C5 amended: with msg_timeout 0 the gate performs no poll and
never reaches READY, whatever the buffer holds at entry: the
while-guard is evaluated before the first poll and 0 is not less than
0, so the loop exits immediately in the timed-out state. -/
theorem zero_timeout_always_times_out (k : ℤ) (obs : ℕ → ℕ) (displayOn : Bool) :
    (runGate k 0 obs displayOn).1 ≠ StatusVal.trueV ∧
      (runGate k 0 obs displayOn).2.1 = 0 := by
  rw [runGate_zero_timeout]
  refine ⟨?_, rfl⟩
  cases displayOn <;> decide

/-- Claim C6, counterexample to the claim as stated: a configuration
with num_msgs_to_start 0 is accepted as is - the dataclass stores the
0 without complaint, and setup() does not reject it either: with any
positive timeout the gate condition index of at least 0 - 1 holds at
the very first poll, so the run completes as READY and no error is
raised. -/
theorem nonpositive_k_accepted_cex :
    ROSTrainerConfig.num_msgs_to_start { msg_timeout := 1/10, num_msgs_to_start := 0 } = 0 ∧
      (runGate 0 (1/10) (fun _ : ℕ => 0) true).1 = StatusVal.trueV ∧
      gateRaises 0 (1/10) (fun _ : ℕ => 0) true = false := by
  have hr := runGate_first_poll 0 (1/10) (fun _ : ℕ => 0) true (by norm_num)
    (by norm_num)
  refine ⟨rfl, ?_, ?_⟩
  · rw [hr]
  · show (!(runGate 0 (1/10) (fun _ : ℕ => 0) true).1.truthy) = false
    rw [hr]
    rfl

/-- Claim C6 amended: num_msgs_to_start of 0 or negative is silently
accepted, not rejected: neither the config dataclass nor setup()
validates it, and for any such value the gate condition is satisfied
by every count at the first poll, so the gate reports READY
immediately (one poll) whenever the timeout admits a poll at all. -/
theorem nonpositive_k_immediate_ready (k : ℤ) (t : ℚ) (obs : ℕ → ℕ)
    (displayOn : Bool) (hk : k ≤ 0) (ht : 0 < t) :
    (runGate k t obs displayOn).1 = StatusVal.trueV ∧
      (runGate k t obs displayOn).2.1 = 1 := by
  have hc : k - 1 ≤ (obs 0 : ℤ) := by omega
  rw [runGate_first_poll k t obs displayOn ht hc]
  exact ⟨rfl, rfl⟩

/-- Claim C6 amended, witness at num_msgs_to_start 0, msg_timeout
1/10 s, count constantly 0. -/
theorem nonpositive_k_immediate_ready_witness :
    ((0 : ℤ) ≤ 0 ∧ (0 : ℚ) < 1/10) ∧
      ((runGate 0 (1/10) (fun _ : ℕ => 0) true).1 = StatusVal.trueV ∧
        (runGate 0 (1/10) (fun _ : ℕ => 0) true).2.1 = 1) :=
  ⟨⟨le_rfl, by norm_num⟩,
    nonpositive_k_immediate_ready 0 (1/10) (fun _ : ℕ => 0) true le_rfl (by norm_num)⟩

/-- Claim C7: in every run of setup() the side effects occur in the
required order.  The trace decomposes as pipeline construction, then
optimizers, then viewer handling (whose events are only the legacy
warning and viewer construction), then viewer warnings, checkpoint
restoration strictly before callback construction, then the event
writer, local writer, configuration record and profiler, and only then
the gate start; after the gate start only gate-phase events occur, so
the gate is never entered before writer construction completes. -/
theorem setup_ordering (legacyEnabled viewerEnabled : Bool) (localRank : ℕ)
    (k : ℤ) (t : ℚ) (obs : ℕ → ℕ) :
    ∃ viewerEvents gateEvents : List SetupEvent,
      setupTrace legacyEnabled viewerEnabled localRank k t obs =
        [SetupEvent.pipelineSetup, SetupEvent.optimizersSetup] ++ viewerEvents ++
          [SetupEvent.checkViewerWarnings, SetupEvent.loadCheckpoint,
           SetupEvent.callbacksConstruct, SetupEvent.eventWriterSetup,
           SetupEvent.localWriterSetup, SetupEvent.putConfig,
           SetupEvent.profilerSetup, SetupEvent.gateStart] ++ gateEvents ∧
      (∀ e ∈ viewerEvents,
        e = SetupEvent.legacyViewerWarning ∨ e = SetupEvent.viewerConstruct) ∧
      (∀ e ∈ gateEvents,
        (∃ p ds, e = SetupEvent.gatePolling p ds) ∨ e = SetupEvent.datasetCapture ∨
          e = SetupEvent.printSuccess ∨ e = SetupEvent.raiseTimeout) := by
  refine ⟨(if legacyEnabled ∧ localRank = 0 then [SetupEvent.legacyViewerWarning] else [])
      ++ (if viewerEnabled ∧ localRank = 0 then [SetupEvent.viewerConstruct] else []),
    [SetupEvent.gatePolling (runGate k t obs true).2.1 (runGate k t obs true).2.2,
     SetupEvent.datasetCapture,
     if (runGate k t obs true).1.truthy then SetupEvent.printSuccess
     else SetupEvent.raiseTimeout], ?_, ?_, ?_⟩
  · simp [setupTrace, List.append_assoc]
  · intro e he
    rw [List.mem_append] at he
    rcases he with h | h
    · split_ifs at h with hcond
      · left
        simpa using h
      · exact absurd h (List.not_mem_nil e)
    · split_ifs at h with hcond
      · right
        simpa using h
      · exact absurd h (List.not_mem_nil e)
  · intro e he
    simp only [List.mem_cons, List.not_mem_nil, or_false] at he
    rcases he with rfl | rfl | rfl
    · exact Or.inl ⟨_, _, rfl⟩
    · exact Or.inr (Or.inl rfl)
    · split_ifs with hcond
      · exact Or.inr (Or.inr (Or.inl rfl))
      · exact Or.inr (Or.inr (Or.inr rfl))

/-- Claim C8: on the primary process (local rank 0) with legacy
visualization requested, the warning of lines 64-67 is emitted and
setup does not abort: checkpoint restoration, callback construction,
the gate and the dataset capture all still occur in the trace. -/
theorem legacy_warning_nonfatal (viewerEnabled : Bool) (localRank : ℕ)
    (k : ℤ) (t : ℚ) (obs : ℕ → ℕ) (h : localRank = 0) :
    SetupEvent.legacyViewerWarning ∈ setupTrace true viewerEnabled localRank k t obs ∧
      SetupEvent.loadCheckpoint ∈ setupTrace true viewerEnabled localRank k t obs ∧
      SetupEvent.callbacksConstruct ∈ setupTrace true viewerEnabled localRank k t obs ∧
      SetupEvent.gateStart ∈ setupTrace true viewerEnabled localRank k t obs ∧
      SetupEvent.datasetCapture ∈ setupTrace true viewerEnabled localRank k t obs := by
  subst h
  cases viewerEnabled <;> refine ⟨?_, ?_, ?_, ?_, ?_⟩ <;> simp [setupTrace]

/-- Claim C8 witness: the membership facts at viewer disabled, local
rank 0, num_msgs_to_start 10, msg_timeout 1/10 s, count constantly
0. -/
theorem legacy_warning_nonfatal_witness :
    (0 : ℕ) = 0 ∧
      (SetupEvent.legacyViewerWarning ∈ setupTrace true false 0 10 (1/10) (fun _ : ℕ => 0) ∧
        SetupEvent.loadCheckpoint ∈ setupTrace true false 0 10 (1/10) (fun _ : ℕ => 0) ∧
        SetupEvent.callbacksConstruct ∈ setupTrace true false 0 10 (1/10) (fun _ : ℕ => 0) ∧
        SetupEvent.gateStart ∈ setupTrace true false 0 10 (1/10) (fun _ : ℕ => 0) ∧
        SetupEvent.datasetCapture ∈ setupTrace true false 0 10 (1/10) (fun _ : ℕ => 0)) :=
  ⟨rfl, legacy_warning_nonfatal false 0 10 (1/10) (fun _ : ℕ => 0) rfl⟩

/-- Claim C9: the gate phase of setup() mutates only the dataset field
of the trainer.  Config, msg_timeout, num_msgs_to_start, pipeline,
optimizers, callbacks, viewer_state and cameras_drawn are unchanged,
and the ingestion buffer and its count function are not written. -/
theorem gate_frame_condition (tr : TrainerState) (obs : ℕ → ℕ) :
    (gatePhase tr obs).trainer.config = tr.config ∧
      (gatePhase tr obs).trainer.msg_timeout = tr.msg_timeout ∧
      (gatePhase tr obs).trainer.num_msgs_to_start = tr.num_msgs_to_start ∧
      (gatePhase tr obs).trainer.pipeline = tr.pipeline ∧
      (gatePhase tr obs).trainer.optimizers = tr.optimizers ∧
      (gatePhase tr obs).trainer.callbacks = tr.callbacks ∧
      (gatePhase tr obs).trainer.viewer_state = tr.viewer_state ∧
      (gatePhase tr obs).trainer.cameras_drawn = tr.cameras_drawn ∧
      (gatePhase tr obs).buffer = obs :=
  ⟨rfl, rfl, rfl, rfl, rfl, rfl, rfl, rfl, rfl⟩

/-- Claim C10: for every nonnegative msg_timeout the polling loop
exits after finitely many iterations, and the number of polls is
bounded by the ceiling of msg_timeout divided by the 0.05 s poll
interval: each iteration either breaks on readiness or advances the
elapsed time by one interval towards the fixed deadline. -/
theorem gate_polls_bounded (k : ℤ) (t : ℚ) (obs : ℕ → ℕ) (displayOn : Bool)
    (_h : 0 ≤ t) :
    (runGate k t obs displayOn).2.1 ≤ (Int.ceil (20 * t)).toNat := by
  have hb := gateLoop_polls_le k t obs (gateFuel t) 0
    (if displayOn then StatusVal.displayHandle else StatusVal.falseV)
  rw [runGate]
  omega

/-- Claim C10 witness: the poll bound applied at num_msgs_to_start 10,
msg_timeout 1/10 s, count constantly 0. -/
theorem gate_polls_bounded_witness :
    (0 : ℚ) ≤ 1/10 ∧
      (runGate 10 (1/10) (fun _ : ℕ => 0) true).2.1 ≤
        (Int.ceil ((20 : ℚ) * (1/10))).toNat :=
  ⟨by norm_num, gate_polls_bounded 10 (1/10) (fun _ : ℕ => 0) true (by norm_num)⟩

end SplatBridge
